import Mathlib

/-!
Verification of the RugGuard scoring and trust pipeline.

Shallow embedding of the Python sources:
  * src/bot/analyzer.py          (AccountAnalyzer)
  * src/bot/trusted_accounts.py  (TrustedAccountsManager)
  * src/bot/report_generator.py  (ReportGenerator)
  * src/config.py                (Config defaults)

Conventions of the embedding:
  * Python floats are modelled as rationals; `round(x, n)` is modelled by
    rounding to the nearest multiple of `10^-n` (the tie-breaking policy is
    immaterial to every statement below because both sides of each theorem
    use the same rounding function).
  * A dict access that may raise `KeyError` is modelled by an `Option` field;
    `dict.get(k, d)` is modelled by `Option.getD`.
  * A function body wrapped in `try/except` whose handler returns a fallback
    value is modelled by a total function that selects the fallback value on
    the corresponding failure condition; a `try/except` whose handler itself
    raises is modelled with result `none`.
-/

namespace RugGuard

/-! ### Config defaults (src/config.py, lines 31-37) -/

/-- Default of `Config.TRUSTED_ACCOUNTS_UPDATE_INTERVAL` (seconds). -/
def TRUSTED_ACCOUNTS_UPDATE_INTERVAL : Nat := 3600

/-- Default of `Config.MIN_TRUSTED_FOLLOWERS`. -/
def MIN_TRUSTED_FOLLOWERS : Nat := 3

/-- Default of `Config.SUSPICIOUS_FOLLOWER_RATIO` (a float in the source). -/
def SUSPICIOUS_RATIO_DEFAULT : ℚ := 10

/-! ### Python numeric helpers -/

/-- Python `round(x, 1)`: round to the nearest multiple of one tenth. -/
def round1 (q : ℚ) : ℚ := ((round (10 * q) : ℤ) : ℚ) / 10

/-- Python `round(x, 2)`: round to the nearest multiple of one hundredth. -/
def round2 (q : ℚ) : ℚ := ((round (100 * q) : ℤ) : ℚ) / 100

/-- `max(0, min(100, x))` from analyzer.py line 414. -/
def clamp0100 (q : ℚ) : ℚ := max 0 (min 100 q)

theorem round1_le_round1 {a b : ℚ} (h : a ≤ b) : round1 a ≤ round1 b := by
  unfold round1
  have h10 : (10 : ℚ) * a ≤ 10 * b := by linarith
  have hr : round ((10 : ℚ) * a) ≤ round ((10 : ℚ) * b) := by
    rw [round_eq, round_eq]
    exact Int.floor_mono (by linarith)
  have hc : ((round ((10 : ℚ) * a) : ℤ) : ℚ) ≤ ((round ((10 : ℚ) * b) : ℤ) : ℚ) :=
    Int.cast_le.mpr hr
  linarith

theorem clamp0100_le_clamp0100 {a b : ℚ} (h : a ≤ b) : clamp0100 a ≤ clamp0100 b :=
  max_le_max (le_refl 0) (min_le_min (le_refl 100) h)

theorem clamp0100_nonneg (q : ℚ) : 0 ≤ clamp0100 q := le_max_left 0 _

theorem clamp0100_le_100 (q : ℚ) : clamp0100 q ≤ 100 :=
  max_le (by norm_num) (min_le_left 100 q)

theorem round1_zero : round1 0 = 0 := by
  unfold round1
  norm_num

theorem round1_100 : round1 100 = 100 := by
  unfold round1
  have h : ((10 : ℚ) * 100) = ((1000 : ℤ) : ℚ) := by norm_num
  rw [h, round_intCast]
  norm_num

theorem round1_clamp_bounds (q : ℚ) :
    0 ≤ round1 (clamp0100 q) ∧ round1 (clamp0100 q) ≤ 100 := by
  constructor
  · have := round1_le_round1 (clamp0100_nonneg q)
    rw [round1_zero] at this
    exact this
  · have := round1_le_round1 (clamp0100_le_100 q)
    rw [round1_100] at this
    exact this

/-! ### AccountAnalyzer._calculate_risk_score (analyzer.py lines 374-420)

The scorer reads seven values out of the nested analysis dict; any of those
lookups can raise `KeyError` (modelled by a `none` field), in which case the
`except` handler at line 420 returns the degraded default `50.0`. -/

/-- The projection of the analysis dict that `_calculate_risk_score` reads.
Each field models a dict path that may be absent. -/
structure Analysis where
  account_age_is_new : Option Bool
  ratio_is_suspicious : Option Bool
  bio_risk_level : Option String
  suspicious_content_ratio : Option ℚ
  engagement_pattern : Option String
  consistent_activity : Option Bool
  verification_status : Option Bool

/-- The sequential accumulation of `risk_score` in lines 377-411, before the
clamp at line 414 and the rounding at line 416. -/
def calculateRiskRaw (isNew susp : Bool) (bioRisk : String) (contentRatio : ℚ)
    (engPattern : String) (consistent verified : Bool) : ℚ :=
  let s : ℚ := 0
  let s := if isNew then s + 25 else s
  let s := if susp then s + 20 else s
  let s := if bioRisk = "high" then s + 20 else if bioRisk = "medium" then s + 10 else s
  let s := s + contentRatio * 15
  let s := if engPattern = "minimal_engagement" then s + 10
           else if engPattern = "high_engagement" then s - 5 else s
  let s := if !consistent then s + 10 else s
  let s := if verified then s - 15 else s
  s

/-- `AccountAnalyzer._calculate_risk_score`: on any missing field the
`except` handler returns 50.0 (line 420); otherwise clamp to [0,100]
(line 414) and round to one decimal (line 416). -/
def calculate_risk_score (a : Analysis) : ℚ :=
  match a.account_age_is_new, a.ratio_is_suspicious, a.bio_risk_level,
      a.suspicious_content_ratio, a.engagement_pattern, a.consistent_activity,
      a.verification_status with
  | some isNew, some susp, some bioRisk, some r, some pat, some cons, some ver =>
      round1 (clamp0100 (calculateRiskRaw isNew susp bioRisk r pat cons ver))
  | _, _, _, _, _, _, _ => 50

set_option maxHeartbeats 2000000 in
theorem calculateRiskRaw_eq (isNew susp : Bool) (bioRisk : String) (r : ℚ)
    (pat : String) (cons ver : Bool) :
    calculateRiskRaw isNew susp bioRisk r pat cons ver =
      (if isNew then (25 : ℚ) else 0) + (if susp then 20 else 0)
      + (if bioRisk = "high" then 20 else if bioRisk = "medium" then 10 else 0)
      + r * 15
      + (if pat = "minimal_engagement" then 10
         else if pat = "high_engagement" then -5 else 0)
      + (if cons then 0 else 10)
      + (if ver then -15 else 0) := by
  cases cons <;>
    simp only [calculateRiskRaw, Bool.not_false, Bool.not_true, Bool.false_eq_true,
      eq_self_iff_true, if_true, if_false] <;>
    split_ifs <;> ring

theorem calculate_risk_score_cases (a : Analysis) :
    calculate_risk_score a = 50 ∨
    ∃ isNew susp bioRisk r pat cons ver,
      a = ⟨some isNew, some susp, some bioRisk, some r, some pat, some cons, some ver⟩ ∧
      calculate_risk_score a =
        round1 (clamp0100 (calculateRiskRaw isNew susp bioRisk r pat cons ver)) := by
  obtain ⟨f1, f2, f3, f4, f5, f6, f7⟩ := a
  cases f1 <;> cases f2 <;> cases f3 <;> cases f4 <;> cases f5 <;> cases f6 <;> cases f7 <;>
    first
      | exact Or.inl rfl
      | exact Or.inr ⟨_, _, _, _, _, _, _, rfl, rfl⟩

/-- C2: for every analysis dict, `_calculate_risk_score` returns a value in
[0,100] that is an integral multiple of one tenth (rounded to one decimal),
and whenever any of the seven field lookups fails (a missing field), it
returns exactly the degraded default 50.0. -/
theorem claim_C2_risk_score_invariant (a : Analysis) :
    0 ≤ calculate_risk_score a ∧ calculate_risk_score a ≤ 100 ∧
    (∃ k : ℤ, calculate_risk_score a = (k : ℚ) / 10) ∧
    ((a.account_age_is_new = none ∨ a.ratio_is_suspicious = none ∨
      a.bio_risk_level = none ∨ a.suspicious_content_ratio = none ∨
      a.engagement_pattern = none ∨ a.consistent_activity = none ∨
      a.verification_status = none) → calculate_risk_score a = 50) := by
  rcases calculate_risk_score_cases a with h | ⟨isNew, susp, bioRisk, r, pat, cons, ver, ha, h⟩
  · refine ⟨by rw [h]; norm_num, by rw [h]; norm_num, ⟨500, by rw [h]; norm_num⟩, fun _ => h⟩
  · subst ha
    rw [h]
    refine ⟨(round1_clamp_bounds _).1, (round1_clamp_bounds _).2,
      ⟨round (10 * clamp0100 (calculateRiskRaw isNew susp bioRisk r pat cons ver)), rfl⟩, ?_⟩
    intro hm
    rcases hm with hm | hm | hm | hm | hm | hm | hm <;> exact Option.noConfusion hm

theorem claim_C2_risk_score_invariant_witness :
    calculate_risk_score ⟨none, some true, some "high", some 1,
      some "minimal_engagement", some false, some false⟩ = 50 ∧
    0 ≤ calculate_risk_score ⟨none, some true, some "high", some 1,
      some "minimal_engagement", some false, some false⟩ :=
  ⟨(claim_C2_risk_score_invariant _).2.2.2 (Or.inl rfl),
   (claim_C2_risk_score_invariant _).1⟩

/-- C5: for a well-formed analysis (every field present), the risk score is
the additive formula: +25 if new, +20 if the ratio is suspicious, +20/+10
for bio risk high/medium, +15 times the suspicious-content ratio, +10 for
minimal engagement and -5 for high engagement, +10 if activity is not
consistent, -15 if verified; clamped to [0,100] and rounded to one decimal. -/
theorem claim_C5_risk_score_formula (isNew susp : Bool) (bioRisk : String) (r : ℚ)
    (pat : String) (cons ver : Bool) :
    calculate_risk_score
        ⟨some isNew, some susp, some bioRisk, some r, some pat, some cons, some ver⟩ =
      round1 (clamp0100
        ((if isNew then (25 : ℚ) else 0) + (if susp then 20 else 0)
          + (if bioRisk = "high" then 20 else if bioRisk = "medium" then 10 else 0)
          + r * 15
          + (if pat = "minimal_engagement" then 10
             else if pat = "high_engagement" then -5 else 0)
          + (if cons then 0 else 10)
          + (if ver then -15 else 0))) := by
  rw [show calculate_risk_score
        ⟨some isNew, some susp, some bioRisk, some r, some pat, some cons, some ver⟩ =
      round1 (clamp0100 (calculateRiskRaw isNew susp bioRisk r pat cons ver)) from rfl,
    calculateRiskRaw_eq]

/-- C7: with every other field fixed, the risk score is monotonically
non-decreasing in the suspicious-content ratio over [0,1], and the score
with verification true never exceeds the score with verification false. -/
theorem claim_C7_risk_score_monotone :
    (∀ (isNew susp : Bool) (bioRisk : String) (pat : String) (cons ver : Bool) (r1 r2 : ℚ),
        0 ≤ r1 → r1 ≤ r2 → r2 ≤ 1 →
        calculate_risk_score
            ⟨some isNew, some susp, some bioRisk, some r1, some pat, some cons, some ver⟩ ≤
          calculate_risk_score
            ⟨some isNew, some susp, some bioRisk, some r2, some pat, some cons, some ver⟩) ∧
    (∀ (isNew susp : Bool) (bioRisk : String) (r : ℚ) (pat : String) (cons : Bool),
        calculate_risk_score
            ⟨some isNew, some susp, some bioRisk, some r, some pat, some cons, some true⟩ ≤
          calculate_risk_score
            ⟨some isNew, some susp, some bioRisk, some r, some pat, some cons, some false⟩) := by
  constructor
  · intro isNew susp bioRisk pat cons ver r1 r2 _ h12 _
    rw [show calculate_risk_score
          ⟨some isNew, some susp, some bioRisk, some r1, some pat, some cons, some ver⟩ =
        round1 (clamp0100 (calculateRiskRaw isNew susp bioRisk r1 pat cons ver)) from rfl,
      show calculate_risk_score
          ⟨some isNew, some susp, some bioRisk, some r2, some pat, some cons, some ver⟩ =
        round1 (clamp0100 (calculateRiskRaw isNew susp bioRisk r2 pat cons ver)) from rfl]
    refine round1_le_round1 (clamp0100_le_clamp0100 ?_)
    rw [calculateRiskRaw_eq, calculateRiskRaw_eq]
    have : r1 * 15 ≤ r2 * 15 := by linarith
    linarith
  · intro isNew susp bioRisk r pat cons
    rw [show calculate_risk_score
          ⟨some isNew, some susp, some bioRisk, some r, some pat, some cons, some true⟩ =
        round1 (clamp0100 (calculateRiskRaw isNew susp bioRisk r pat cons true)) from rfl,
      show calculate_risk_score
          ⟨some isNew, some susp, some bioRisk, some r, some pat, some cons, some false⟩ =
        round1 (clamp0100 (calculateRiskRaw isNew susp bioRisk r pat cons false)) from rfl]
    refine round1_le_round1 (clamp0100_le_clamp0100 ?_)
    rw [calculateRiskRaw_eq, calculateRiskRaw_eq]
    norm_num

theorem claim_C7_risk_score_monotone_witness :
    calculate_risk_score
        ⟨some true, some false, some "low", some 0, some "no_data", some false, some false⟩ ≤
      calculate_risk_score
        ⟨some true, some false, some "low", some 1, some "no_data", some false, some false⟩ :=
  claim_C7_risk_score_monotone.1 true false "low" "no_data" false false 0 1
    (by norm_num) (by norm_num) (by norm_num)

/-! ### AccountAnalyzer._calculate_follower_ratio (analyzer.py lines 105-125) -/

/-- The ratio computed at lines 111-114: `followers / following` when
`following > 0`, otherwise the raw follower count. -/
def follower_ratio_raw (followers following : Nat) : ℚ :=
  if following = 0 then (followers : ℚ) else (followers : ℚ) / (following : ℚ)

/-- The dict returned by `_calculate_follower_ratio`. -/
structure FollowerRatio where
  ratio : ℚ
  followers : Nat
  following : Nat
  is_suspicious : Bool
  interpretation : String

/-- `AccountAnalyzer._interpret_follower_ratio` (lines 127-138). -/
def interpret_follower_ratio (ratio : ℚ) (followers following : Nat) : String :=
  if ratio > 100 then "Very high ratio - possible influencer or suspicious bot activity"
  else if ratio > 10 then "High ratio - established account or selective following"
  else if ratio > 1 then "Balanced ratio - normal engagement pattern"
  else if ratio > 1 / 10 then "Low ratio - active in following others"
  else "Very low ratio - following much more than followers"

/-- `AccountAnalyzer._calculate_follower_ratio` (lines 105-122): the `ratio`
entry is rounded to two decimals, while the suspicion test at line 120 uses
the unrounded ratio. -/
def calculate_follower_ratio (followers following : Nat) : FollowerRatio :=
  let ratio := follower_ratio_raw followers following
  { ratio := round2 ratio
    followers := followers
    following := following
    is_suspicious := decide (ratio > SUSPICIOUS_RATIO_DEFAULT) ||
      (decide (followers > 1000) && decide (following < 10))
    interpretation := interpret_follower_ratio ratio followers following }

theorem round2_natCast (n : ℕ) : round2 ((n : ℕ) : ℚ) = n := by
  unfold round2
  rw [show (100 : ℚ) * (n : ℚ) = ((100 * n : ℕ) : ℚ) by push_cast; ring, round_natCast]
  push_cast
  ring

/-- C8: an account with following = 0 and followers = 5000 gets ratio 5000
and is flagged suspicious; in general, following = 0 makes the ratio equal
the follower count, and suspicion holds exactly when the ratio exceeds
`SUSPICIOUS_FOLLOWER_RATIO` (default 10.0) or followers > 1000 with
following < 10. -/
theorem claim_C8_follower_ratio_boundary :
    (calculate_follower_ratio 5000 0).ratio = 5000 ∧
    (calculate_follower_ratio 5000 0).is_suspicious = true ∧
    (∀ f : Nat, (calculate_follower_ratio f 0).ratio = (f : ℚ)) ∧
    (∀ followers following : Nat,
        ((calculate_follower_ratio followers following).is_suspicious = true ↔
          (follower_ratio_raw followers following > SUSPICIOUS_RATIO_DEFAULT ∨
            (followers > 1000 ∧ following < 10)))) := by
  have hzero : ∀ f : Nat, (calculate_follower_ratio f 0).ratio = (f : ℚ) := by
    intro f
    show round2 (follower_ratio_raw f 0) = (f : ℚ)
    rw [show follower_ratio_raw f 0 = ((f : ℕ) : ℚ) from if_pos rfl]
    exact round2_natCast f
  have hiff : ∀ followers following : Nat,
      ((calculate_follower_ratio followers following).is_suspicious = true ↔
        (follower_ratio_raw followers following > SUSPICIOUS_RATIO_DEFAULT ∨
          (followers > 1000 ∧ following < 10))) := by
    intro followers following
    show (decide (follower_ratio_raw followers following > SUSPICIOUS_RATIO_DEFAULT) ||
      (decide (followers > 1000) && decide (following < 10))) = true ↔ _
    simp [Bool.or_eq_true, Bool.and_eq_true, decide_eq_true_eq]
  refine ⟨by rw [hzero 5000]; norm_num, ?_, hzero, hiff⟩
  rw [hiff 5000 0]
  left
  rw [show follower_ratio_raw 5000 0 = ((5000 : ℕ) : ℚ) from if_pos rfl]
  norm_num [SUSPICIOUS_RATIO_DEFAULT]

/-! ### Keyword matching and bio analysis (analyzer.py lines 20-28, 140-183) -/

/-- The suspicious keyword list from `AccountAnalyzer.__init__` (lines 20-24). -/
def suspicious_keywords : List String :=
  ["pump", "moon", "lambo", "diamond hands", "hodl", "ape",
   "guaranteed", "returns", "investment opportunity", "exclusive",
   "limited time", "act now", "don\x27t miss out", "financial advice"]

/-- The positive keyword list from `AccountAnalyzer.__init__` (lines 25-28). -/
def positive_keywords : List String :=
  ["research", "analysis", "education", "community", "development",
   "building", "learning", "discussing", "sharing", "helping"]

/-- Python `str.lower()`. -/
def pyLower (s : String) : String := s.map Char.toLower

/-- Substring search over character lists, modelling Python `needle in hay`. -/
def isSubChars (needle : List Char) : List Char → Bool
  | [] => needle.isEmpty
  | c :: rest => needle.isPrefixOf (c :: rest) || isSubChars needle rest

/-- Python `needle in hay` on strings. -/
def strContainsSub (hay needle : String) : Bool := isSubChars needle.data hay.data

/-- Two leading lowercase ASCII letters, for the `\.[a-z]\x7b2,\x7d` regex arm. -/
def twoLowerAZ : List Char → Bool
  | a :: b :: _ => (decide (97 ≤ a.toNat) && decide (a.toNat ≤ 122)) &&
      (decide (97 ≤ b.toNat) && decide (b.toNat ≤ 122))
  | _ => false

/-- A dot followed by at least two lowercase letters somewhere in the text. -/
def hasDotTLD : List Char → Bool
  | [] => false
  | c :: rest => (c == Char.ofNat 46 && twoLowerAZ rest) || hasDotTLD rest

/-- The link regex of line 160: matches iff the bio contains `http://` or
`https://` or `www.` or a dot followed by two lowercase letters. -/
def containsLinkPattern (s : String) : Bool :=
  strContainsSub s "http://" || strContainsSub s "https://" ||
    strContainsSub s "www." || hasDotTLD s.data

/-- The dict returned by `_analyze_bio`; the `text` entry is absent from the
empty-bio branch and from the failure fallback, hence an `Option`. -/
structure BioAnalysis where
  length : Nat
  has_bio : Bool
  suspicious_keywords : List String
  positive_keywords : List String
  contains_links : Bool
  risk_level : String
  text : Option String

/-- `AccountAnalyzer._analyze_bio` (lines 140-179); the input is `none` for a
missing bio, and Python `if not bio` also sends the empty string to the
same branch (lines 143-151). -/
def analyze_bio (bio : Option String) : BioAnalysis :=
  let b := bio.getD ""
  if b = "" then
    { length := 0, has_bio := false, suspicious_keywords := [],
      positive_keywords := [], contains_links := false,
      risk_level := "medium", text := none }
  else
    let bioLower := pyLower b
    let foundSuspicious := suspicious_keywords.filter (fun kw => strContainsSub bioLower kw)
    let foundPositive := positive_keywords.filter (fun kw => strContainsSub bioLower kw)
    let riskLevel :=
      if foundSuspicious.length > 2 then "high"
      else if foundSuspicious.length > 0 then "medium"
      else if foundPositive.length > 0 then "low"
      else "low"
    { length := b.length, has_bio := true, suspicious_keywords := foundSuspicious,
      positive_keywords := foundPositive, contains_links := containsLinkPattern b,
      risk_level := riskLevel,
      text := some (if b.length > 100 then b.take 100 ++ "..." else b) }

/-- The `except` fallback of `_analyze_bio` (line 183), returned when the
computation over the bio raises internally. -/
def analyze_bio_on_error : BioAnalysis :=
  { length := 0, has_bio := false, suspicious_keywords := [],
    positive_keywords := [], contains_links := false,
    risk_level := "high", text := none }

/-- C10: a missing or empty bio degrades to risk level "medium" while an
internal failure during bio analysis degrades to "high", and those two
levels contribute +10 and +20 respectively to the raw risk sum relative to
the "low" level. -/
theorem claim_C10_bio_degraded_levels :
    (analyze_bio none).risk_level = "medium" ∧
    (analyze_bio (some "")).risk_level = "medium" ∧
    analyze_bio_on_error.risk_level = "high" ∧
    (∀ (isNew susp : Bool) (r : ℚ) (pat : String) (cons ver : Bool),
        calculateRiskRaw isNew susp "medium" r pat cons ver =
          calculateRiskRaw isNew susp "low" r pat cons ver + 10) ∧
    (∀ (isNew susp : Bool) (r : ℚ) (pat : String) (cons ver : Bool),
        calculateRiskRaw isNew susp "high" r pat cons ver =
          calculateRiskRaw isNew susp "low" r pat cons ver + 20) := by
  have hmh : (("medium" : String) = "high") = False := eq_false (by decide)
  have hlh : (("low" : String) = "high") = False := eq_false (by decide)
  have hlm : (("low" : String) = "medium") = False := eq_false (by decide)
  refine ⟨rfl, rfl, rfl, ?_, ?_⟩ <;>
    · intro isNew susp r pat cons ver
      simp only [calculateRiskRaw_eq, hmh, hlh, hlm, eq_self_iff_true, if_true, if_false]
      ring

/-! ### AccountAnalyzer._analyze_content (analyzer.py lines 236-289)

Only the `suspicious_content_ratio` entry feeds the risk score.  The
empty-tweets branch at lines 239-246 returns a dict WITHOUT that key
(modelled as `none`); the normal branch sets it at line 284.  The sentiment
fields use the external TextBlob library and are not modelled. -/

/-- A tweet as consumed by the content analyzer. -/
structure Tweet where
  text : String
  like_count : Nat
  retweet_count : Nat
  reply_count : Nat

/-- Line 269-273: the number of sampled tweets whose lowercased text contains
any suspicious keyword. -/
def suspicious_content_count (tweets : List Tweet) : Nat :=
  (tweets.filter (fun t =>
    suspicious_keywords.any (fun kw => strContainsSub (pyLower t.text) kw))).length

/-- The `suspicious_content_ratio` entry of the dict returned by
`_analyze_content`: absent (`none`) when the tweet list is empty. -/
def analyze_content_suspicious_ratio (tweets : List Tweet) : Option ℚ :=
  match tweets with
  | [] => none
  | _ => some (round2 ((suspicious_content_count tweets : ℚ) / (tweets.length : ℚ)))

/-- C9: with an empty tweet list, `_analyze_content` returns a dict lacking
the `suspicious_content_ratio` key, so the risk scorer's lookup fails and
the degraded default 50.0 is returned regardless of every other feature. -/
theorem claim_C9_empty_tweets_degrade :
    analyze_content_suspicious_ratio ([] : List Tweet) = none ∧
    ∀ (isNew susp : Bool) (bioRisk : String) (pat : String) (cons ver : Bool),
      calculate_risk_score ⟨some isNew, some susp, some bioRisk,
        analyze_content_suspicious_ratio [], some pat, some cons, some ver⟩ = 50 :=
  ⟨rfl, fun _ _ _ _ _ _ => rfl⟩

/-! ### TrustedAccountsManager (trusted_accounts.py) -/

/-- The dict returned by `check_trust_score` (lines 96-133, 195-204). -/
structure TrustScoreInfo where
  is_trusted : Bool
  trust_level : String
  trusted_followers : List String
  trusted_followers_count : Nat
  vouched_by_trusted : Bool
  explanation : String

/-- The classification core of `TrustedAccountsManager.check_trust_score`
(lines 96-133), abstracted over the two facts obtained from the network:
whether the lowercased username is in the trusted set (line 96) and the
list of trusted followers returned by `_get_trusted_followers` (line 107).
`MIN_TRUSTED_FOLLOWERS` is the config default 3. -/
def check_trust_score_classify (username : String) (inTrustedList : Bool)
    (trusted_followers : List String) : TrustScoreInfo :=
  if inTrustedList then
    { is_trusted := true, trust_level := "directly_trusted", trusted_followers := [],
      trusted_followers_count := 0, vouched_by_trusted := true,
      explanation := "@" ++ username ++ " is directly on the trusted accounts list" }
  else
    let trusted_count := trusted_followers.length
    if trusted_count ≥ MIN_TRUSTED_FOLLOWERS then
      { is_trusted := true, trust_level := "vouched_by_trusted",
        trusted_followers := trusted_followers,
        trusted_followers_count := trusted_count, vouched_by_trusted := true,
        explanation :=
          let base := "Followed by " ++ toString trusted_count ++ " trusted accounts: " ++
            String.intercalate ", " (trusted_followers.take 3)
          if trusted_count > 3 then
            base ++ " and " ++ toString (trusted_count - 3) ++ " others"
          else base }
    else if trusted_count > 0 then
      { is_trusted := false, trust_level := "partially_vouched",
        trusted_followers := trusted_followers,
        trusted_followers_count := trusted_count, vouched_by_trusted := false,
        explanation := "Followed by " ++ toString trusted_count ++
          " trusted account(s) (minimum " ++ toString MIN_TRUSTED_FOLLOWERS ++ " required)" }
    else
      { is_trusted := false, trust_level := "not_vouched",
        trusted_followers := trusted_followers,
        trusted_followers_count := trusted_count, vouched_by_trusted := false,
        explanation := "Not followed by any trusted accounts" }

/-- Line 35 of `TrustedAccountsManager.update_trusted_list`: the refresh is
skipped (returning True without fetching) when `last_update` is set and
`(datetime.now() - self.last_update).seconds` is below the interval.
Python `timedelta.seconds` is the seconds component of the normalized
timedelta, i.e. the elapsed whole seconds modulo 86400 — not the total
elapsed seconds.  Times are modelled in whole seconds. -/
def update_trusted_list_skips (last_update : Option Nat) (now : Nat) : Bool :=
  match last_update with
  | none => false
  | some lu => decide ((now - lu) % 86400 < TRUSTED_ACCOUNTS_UPDATE_INTERVAL)

/-! ### ReportGenerator (report_generator.py)

The composer reads the analysis dict only through `dict.get` with defaults,
so a well-typed analysis never raises inside the section builders; the two
failure points of `generate_report` are line 35 (`analysis.get` raises
`AttributeError` when `analysis` is `None`, and the `except` handler then
raises `UnboundLocalError` because `username` was never assigned) and the
`"\n".join` at line 61 (raises `TypeError` when `_generate_trust_status`
returned Python `None`, after which the handler returns the generic error
report, `username` being bound by then). -/

/-- The fields of the analysis dict that `ReportGenerator` reads, each
`Option` modelling a possibly missing key accessed via `dict.get`. -/
structure ReportAnalysis where
  username : Option String
  risk_score : Option ℚ
  account_age_days : Option Nat
  followers_count : Option Nat
  avg_likes : Option ℚ
  has_bio : Option Bool
  bio_risk_level : Option String
  recent_activity : Option Bool
  suspicious_content_ratio : Option ℚ
  verification_status : Option Bool

/-- Python `str()` of a float, exact for the non-negative one-decimal
values produced by the scorer (e.g. `str(37.5) = "37.5"`, `str(50.0) =
"50.0"`). -/
def floatStr (q : ℚ) : String :=
  toString ⌊q⌋ ++ "." ++ toString (⌊q * 10⌋ - 10 * ⌊q⌋).toNat

/-- `ReportGenerator._generate_trust_status` (lines 73-92).  Result `none`
models the implicit Python `None` return: when `is_trusted` is true but the
trust level is neither "directly_trusted" nor "network_backed", no branch
returns and the function falls off the end. -/
def generate_trust_status (ts : TrustScoreInfo) : Option String :=
  if ts.is_trusted then
    if ts.trust_level = "directly_trusted" then
      some ("✅ VERIFIED TRUSTED ACCOUNT\n• Account is on Project RUGGUARD\x27s trusted list\n• Automatically vouched by the system")
    else if ts.trust_level = "network_backed" then
      some ("🤝 NETWORK BACKED ACCOUNT\n• Followed by " ++
        toString ts.trusted_followers.length ++
        " trusted accounts from our list\n• Meets minimum threshold of 3 trusted followers")
    else none
  else
    if ts.trusted_followers_count > 0 then
      some ("⚠️ PARTIALLY BACKED\n• Followed by " ++ toString ts.trusted_followers_count ++
        " trusted account(s)\n• Needs 3+ for full verification")
    else
      some "❌ UNVERIFIED ACCOUNT\n• Not on trusted list\n• No trusted accounts following\n• Requires manual verification"

/-- `ReportGenerator._generate_risk_assessment` (lines 94-116).  The Python
default `50` is the int 50, rendered "50"; a present score is a float and
rendered by `floatStr`. -/
def generate_risk_assessment (a : ReportAnalysis) : String :=
  let risk := a.risk_score.getD 50
  let riskStr := match a.risk_score with
    | some q => floatStr q
    | none => "50"
  let pair : String × String :=
    if risk < 20 then ("🟢", "LOW RISK")
    else if risk < 40 then ("🟡", "MODERATE RISK")
    else if risk < 70 then ("🟠", "HIGH RISK")
    else ("🔴", "VERY HIGH RISK")
  pair.1 ++ " " ++ pair.2 ++ " (Score: " ++ riskStr ++ "/100)"

/-- `ReportGenerator._generate_key_metrics` (lines 118-157). -/
def generate_key_metrics (a : ReportAnalysis) : String :=
  let age_days := a.account_age_days.getD 0
  let m1 :=
    if age_days > 365 then "📅 " ++ toString (age_days / 365) ++ "y old"
    else if age_days > 30 then "📅 " ++ toString (age_days / 30) ++ "m old"
    else "📅 " ++ toString age_days ++ "d old"
  let followers := a.followers_count.getD 0
  let m2 :=
    if followers > 1000000 then "👥 " ++ toString (followers / 1000000) ++ "M followers"
    else if followers > 1000 then "👥 " ++ toString (followers / 1000) ++ "K followers"
    else "👥 " ++ toString followers ++ " followers"
  let avg_likes := a.avg_likes.getD 0
  let m3 :=
    if avg_likes > 100 then "📊 High engagement"
    else if avg_likes > 10 then "📊 Moderate engagement"
    else "📊 Low engagement"
  String.intercalate " | " [m1, m2, m3]

/-- `ReportGenerator._generate_detailed_analysis` (lines 159-200).  With a
present bio whose risk level is "medium" no bio detail is appended. -/
def generate_detailed_analysis (a : ReportAnalysis) : String :=
  let d1 : List String :=
    if a.has_bio.getD false then
      let rl := a.bio_risk_level.getD "unknown"
      if rl = "high" then ["⚠️ Suspicious bio content"]
      else if rl = "low" then ["✅ Clean bio content"]
      else []
    else ["⚠️ No bio"]
  let d2 : List String :=
    if a.recent_activity.getD false then ["✅ Recently active"] else ["⚠️ Inactive recently"]
  let r := a.suspicious_content_ratio.getD 0
  let d3 : List String :=
    if r > 3 / 10 then ["🚨 High suspicious content"]
    else if r > 1 / 10 then ["⚠️ Some suspicious content"]
    else ["✅ Clean content"]
  let d4 : List String :=
    if a.verification_status.getD false then ["✅ Verified account"] else []
  let details := d1 ++ d2 ++ d3 ++ d4
  if details.isEmpty then "Analysis complete" else String.intercalate " | " details

/-- Python `str.split()` with no argument: split on whitespace runs,
discarding empty pieces. -/
def pySplitWs (s : String) : List String :=
  (s.split Char.isWhitespace).filter (fun t => !t.isEmpty)

/-- The body of `ReportGenerator._truncate_report` (lines 202-225); `none`
models an exception reaching the handler at line 227 (an `IndexError` from
`report_parts[i]` or from `.split()[0]` on an empty split). -/
def truncate_report_core (parts : List String) : Option String := do
  let p0 ← parts[0]?
  let p2 ← parts[2]?
  let p3 ← parts[3]?
  let p4 ← parts[4]?
  let essential := [p0, p2, p3, p4, "⚠️ DYOR! #RUGGUARD"]
  let truncated := String.intercalate "\n" essential
  let truncated ←
    if truncated.length > 280 then do
      let username ←
        if p0.contains (Char.ofNat 64) then
          ((p0.splitOn "@")[1]?).bind (fun t => (pySplitWs t)[0]?)
        else pure "user"
      let trust_line :=
        if p2.contains (Char.ofNat 58) then (p2.splitOn ":").headD "" else p2
      let risk_line :=
        if p3.contains (Char.ofNat 40) then ((p3.splitOn "(").headD "").trim else p3
      pure ("🔍 @" ++ username ++ "\n" ++ trust_line ++ "\n" ++ risk_line ++
        "\n⚠️ DYOR! #RUGGUARD")
    else pure truncated
  pure (truncated.take 280)

/-- `ReportGenerator._truncate_report` with its `except` fallback (line 229). -/
def truncate_report (parts : List String) : String :=
  (truncate_report_core parts).getD
    "🔍 RUGGUARD: Analysis complete. Check logs for details. #RUGGUARD"

/-- The generic error report built by the `except` handler of
`generate_report` (line 71). -/
def error_report_text (username : String) : String :=
  "🔍 RUGGUARD: Error analyzing @" ++ username ++ ". Please try again later. #RUGGUARD"

/-- `ReportGenerator.generate_report` (lines 18-71).  Result `none` models
the call raising outward (None analysis: the handler itself raises because
`username` is unbound); `some` is the returned report string. -/
def generate_report (analysis : Option ReportAnalysis) (trust_score : TrustScoreInfo)
    (user_id : String) : Option String :=
  match analysis with
  | none => none
  | some a =>
    let username := a.username.getD "unknown"
    let header := "🔍 RUGGUARD TRUST REPORT for @" ++ username
    match generate_trust_status trust_score with
    | none => some (error_report_text username)
    | some trust_status =>
      let parts := [header, "", trust_status, generate_risk_assessment a,
        generate_key_metrics a, generate_detailed_analysis a, "",
        "⚠️ This is an automated analysis. DYOR!", "#RUGGUARD #TrustScore"]
      let full_report := String.intercalate "\n" parts
      some (if full_report.length > 280 then truncate_report parts else full_report)

/-! ### Claims about the trust pipeline and the composer -/

/-- C3 (code bug): for a user not on the trusted list with 3 trusted
followers, `check_trust_score` sets `is_trusted` but labels the level
"vouched_by_trusted", not the "network_backed" the claim (and the report
generator, lines 80-83 of report_generator.py) expects — so the trust-status
section builder falls through and returns Python `None` for exactly the
accounts the vouching system endorses.  The two lower branches do match the
claim. -/
theorem claim_C3_trust_level_name_mismatch :
    (check_trust_score_classify "bob" false ["alpha", "beta", "gamma"]).trust_level =
      "vouched_by_trusted" ∧
    (check_trust_score_classify "bob" false ["alpha", "beta", "gamma"]).is_trusted = true ∧
    ¬ (check_trust_score_classify "bob" false ["alpha", "beta", "gamma"]).trust_level =
      "network_backed" ∧
    generate_trust_status (check_trust_score_classify "bob" false ["alpha", "beta", "gamma"]) =
      none ∧
    (check_trust_score_classify "bob" false ["alpha"]).trust_level = "partially_vouched" ∧
    (check_trust_score_classify "bob" false ["alpha"]).is_trusted = false ∧
    (check_trust_score_classify "bob" false []).trust_level = "not_vouched" ∧
    (check_trust_score_classify "bob" false []).is_trusted = false := by
  refine ⟨rfl, rfl, by decide, rfl, rfl, rfl, rfl, rfl⟩

/-- C6 (code bug): `update_trusted_list` compares `timedelta.seconds` — the
elapsed time modulo one day — against the interval, so 86500 seconds
(one day plus 100 s) after the last refresh it still skips the reload, even
though far more than the 3600 s interval has elapsed. -/
theorem claim_C6_refresh_skips_after_interval :
    update_trusted_list_skips (some 0) 86500 = true ∧
    ¬ (86500 - 0 < TRUSTED_ACCOUNTS_UPDATE_INTERVAL) ∧
    update_trusted_list_skips (some 0) 3600 = false := by
  refine ⟨by decide, by decide, by decide⟩

/-- A 300-character username, used to exhibit the unbounded error report. -/
def longUsername : String := String.mk (List.replicate 300 (Char.ofNat 97))

/-- Analysis dict carrying only the long username. -/
def c1_analysis : ReportAnalysis :=
  ⟨some longUsername, none, none, none, none, none, none, none, none, none⟩

/-- Trust dict as actually produced by `check_trust_score` for a
network-vouched account: trusted with level "vouched_by_trusted". -/
def c1_trust : TrustScoreInfo :=
  { is_trusted := true, trust_level := "vouched_by_trusted", trusted_followers := [],
    trusted_followers_count := 0, vouched_by_trusted := true, explanation := "" }

set_option maxRecDepth 4000 in
/-- C1 (code bug): the internal-failure fallback of `generate_report`
interpolates the username into a fixed template with no truncation, so with
a 300-character username (and a trust dict that makes the join fail) the
returned report is 364 code points long, exceeding the 280 budget the claim
asserts for every input. -/
theorem claim_C1_fallback_exceeds_budget :
    generate_report (some c1_analysis) c1_trust "12345" =
      some (error_report_text longUsername) ∧
    (error_report_text longUsername).length = 364 ∧
    280 < 364 := by
  refine ⟨rfl, by decide, by decide⟩

/-- C4 (code bug): called with `analysis = None`, `generate_report` raises
`AttributeError` at line 35 before `username` is assigned, and the `except`
handler then raises `UnboundLocalError` when building the error report — the
call raises outward (modelled as `none`) instead of returning the generic
error report. -/
theorem claim_C4_none_analysis_raises :
    ∀ (ts : TrustScoreInfo) (uid : String), generate_report none ts uid = none :=
  fun _ _ => rfl

end RugGuard
